import Mathlib

/-!
# WeatherSensorCfg: the two board configuration headers

The repository consists of two C preprocessor headers,
`firmware/esp32/WeatherSensorCfg.h` and
`firmware/esp8266/WeatherSensorCfg_ESP8266.h`.  They are embedded here as
their source text, line by line, together with a small model of the part of
the C preprocessor they use: `//` comments, `#ifndef`, `#define` of
object-like macros and `#endif`.
-/

namespace WeatherSensorCfg

/-! ## Source text -/

/-- Text of `firmware/esp32/WeatherSensorCfg.h`, one string per line. -/
def esp32Text : List String :=
  [ "///////////////////////////////////////////////////////////////////////////////",
    "// WeatherSensorCfg.h - Local configuration override",
    "// Place in sketch folder to override library defaults",
    "///////////////////////////////////////////////////////////////////////////////",
    "",
    "#ifndef WEATHER_SENSOR_CFG_H",
    "#define WEATHER_SENSOR_CFG_H",
    "",
    "// Radio chip selection",
    "#define USE_CC1101",
    "",
    "// Bresser sensor type",
    "#define BRESSER_5_IN_1",
    "",
    "// Pin configuration for ESP32 with CC1101",
    "// All pins on same side of dev board",
    "#define PIN_RECEIVER_CS   5    // CSN",
    "#define PIN_RECEIVER_IRQ  4    // GDO0 (interrupt)",
    "#define PIN_RECEIVER_GPIO 2    // GDO2 (optional)",
    "#define PIN_RECEIVER_RST  -1   // Not used for CC1101",
    "",
    "// Number of sensors to receive",
    "#define MAX_SENSORS_DEFAULT 1",
    "",
    "// Frequency for Europe (868 MHz band)",
    "// Use 915.0 for US",
    "#define WEATHER_SENSOR_FREQUENCY 868.3",
    "",
    "// Enable weather sensor features",
    "#define WIND_DATA_FLOATINGPOINT",
    "#define WIND_DATA_FLOATINGPOINT",
    "",
    "// Debug output (comment out to disable)",
    "// #define _DEBUG_MODE_",
    "",
    "#endif // WEATHER_SENSOR_CFG_H",
    "" ]

/-- Text of `firmware/esp8266/WeatherSensorCfg_ESP8266.h`, one string per line. -/
def esp8266Text : List String :=
  [ "///////////////////////////////////////////////////////////////////////////////",
    "// WeatherSensorCfg_ESP8266.h - Configuration for NodeMCU ESP8266",
    "// Pin mapping for ESP8266 with CC1101",
    "///////////////////////////////////////////////////////////////////////////////",
    "",
    "#ifndef WEATHER_SENSOR_CFG_H",
    "#define WEATHER_SENSOR_CFG_H",
    "",
    "// Radio chip selection",
    "#define USE_CC1101",
    "",
    "// Bresser sensor type",
    "#define BRESSER_5_IN_1",
    "",
    "// Pin configuration for NodeMCU ESP8266 with CC1101",
    "//",
    "// NodeMCU ESP8266 SPI Pins (directly accessible on board):",
    "//   D5 = GPIO14 = SCK  (hardware SPI clock)",
    "//   D6 = GPIO12 = MISO (hardware SPI data in)",
    "//   D7 = GPIO13 = MOSI (hardware SPI data out)",
    "//   D8 = GPIO15 = CS   (directly wired to CC1101 CSN)",
    "//",
    "// Interrupt and GPIO pins:",
    "//   D2 = GPIO4  = GDO0 (interrupt from CC1101)",
    "//   D1 = GPIO5  = GDO2 (optional, general purpose)",
    "//",
    "// PIN MAPPING from ESP32 to NodeMCU:",
    "//   ESP32 GPIO 5  (CS)   -> NodeMCU D8 (GPIO15)",
    "//   ESP32 GPIO 18 (SCK)  -> NodeMCU D5 (GPIO14) - handled by hardware SPI",
    "//   ESP32 GPIO 23 (MOSI) -> NodeMCU D7 (GPIO13) - handled by hardware SPI",
    "//   ESP32 GPIO 19 (MISO) -> NodeMCU D6 (GPIO12) - handled by hardware SPI",
    "//   ESP32 GPIO 4  (GDO0) -> NodeMCU D2 (GPIO4)",
    "//   ESP32 GPIO 2  (GDO2) -> NodeMCU D1 (GPIO5)",
    "",
    "#define PIN_RECEIVER_CS   15   // D8 - CSN (Chip Select)",
    "#define PIN_RECEIVER_IRQ  4    // D2 - GDO0 (interrupt)",
    "#define PIN_RECEIVER_GPIO 5    // D1 - GDO2 (optional)",
    "#define PIN_RECEIVER_RST  -1   // Not used for CC1101",
    "",
    "// Number of sensors to receive",
    "#define MAX_SENSORS_DEFAULT 1",
    "",
    "// Frequency for Europe (868 MHz band)",
    "// Use 915.0 for US",
    "#define WEATHER_SENSOR_FREQUENCY 868.3",
    "",
    "// Enable weather sensor features",
    "#define WIND_DATA_FLOATINGPOINT",
    "",
    "// Debug output (comment out to disable)",
    "// #define _DEBUG_MODE_",
    "",
    "#endif // WEATHER_SENSOR_CFG_H" ]

/-! ## Lexing a line -/

/-- Replacement list of an object-like macro. -/
inductive Body where
  /-- No replacement tokens: `#define NAME`. -/
  | empty
  /-- An integer constant, possibly with a leading minus sign: `5`, `-1`. -/
  | int (v : Int)
  /-- A decimal constant `868.3`, kept as mantissa and number of fractional
  digits: `decimal 8683 1`. -/
  | decimal (mantissa : Nat) (scale : Nat)
  /-- Any other replacement text, kept as its words. -/
  | text (ws : List String)
  deriving DecidableEq, Repr

/-- One line of a header after lexing. -/
inductive Line where
  /-- Empty line or a line holding only a `//` comment. -/
  | blank
  | ifndef (name : String)
  | define (name : String) (body : Body)
  | endif
  /-- Anything else (does not occur in the two headers). -/
  | other (ws : List String)
  deriving DecidableEq, Repr

/-- Cut a line at the first `//`. -/
def stripComment : List Char → List Char
  | [] => []
  | [c] => [c]
  | c :: d :: cs => if c = '/' ∧ d = '/' then [] else c :: stripComment (d :: cs)

/-- Split at blanks; `cur` is the word being read, reversed. -/
def wordsAux : List Char → List Char → List (List Char)
  | [], cur => if cur = [] then [] else [cur.reverse]
  | c :: cs, cur =>
    if c = ' ' then
      if cur = [] then wordsAux cs [] else cur.reverse :: wordsAux cs []
    else wordsAux cs (c :: cur)

/-- The blank-separated words of a line. -/
def words (cs : List Char) : List (List Char) := wordsAux cs []

/-- Value of a decimal digit character. -/
def digit? (c : Char) : Option Nat :=
  if '0' ≤ c ∧ c ≤ '9' then some (c.toNat - '0'.toNat) else none

/-- Read a nonempty run of decimal digits, most significant first, on top of
the value `acc` read so far. -/
def digitsAux : List Char → Nat → Option Nat
  | [], acc => some acc
  | c :: cs, acc =>
    match digit? c with
    | some d => digitsAux cs (10 * acc + d)
    | none => none

/-- Value of a word made of decimal digits only. -/
def nat? : List Char → Option Nat
  | [] => none
  | cs => digitsAux cs 0

/-- The part of a word before the first `.` and the part after it, if any. -/
def splitDot : List Char → List Char × Option (List Char)
  | [] => ([], none)
  | c :: cs =>
    if c = '.' then ([], some cs)
    else ((splitDot cs).1.cons c, (splitDot cs).2)

/-- Replacement list from the words after the macro name. -/
def parseBody : List (List Char) → Body
  | [] => Body.empty
  | [w] =>
    match w with
    | '-' :: ds =>
      match nat? ds with
      | some n => Body.int (-(n : Int))
      | none => Body.text [String.mk w]
    | _ =>
      match splitDot w with
      | (ip, none) =>
        match nat? ip with
        | some n => Body.int n
        | none => Body.text [String.mk w]
      | (ip, some fp) =>
        match nat? ip, nat? fp with
        | some _, some _ =>
          match nat? (ip ++ fp) with
          | some m => Body.decimal m fp.length
          | none => Body.text [String.mk w]
        | _, _ => Body.text [String.mk w]
  | ws => Body.text (ws.map String.mk)

/-- Lex one line of source text. -/
def parseLine (s : String) : Line :=
  match words (stripComment s.data) with
  | [] => Line.blank
  | d :: rest =>
    if d = "#ifndef".data then
      match rest with
      | [n] => Line.ifndef (String.mk n)
      | _ => Line.other ((d :: rest).map String.mk)
    else if d = "#define".data then
      match rest with
      | n :: body => Line.define (String.mk n) (parseBody body)
      | [] => Line.other [String.mk d]
    else if d = "#endif".data then Line.endif
    else Line.other ((d :: rest).map String.mk)

/-- The ESP32 header as a list of lexed lines. -/
def esp32Header : List Line := esp32Text.map parseLine

/-- The ESP8266 header as a list of lexed lines. -/
def esp8266Header : List Line := esp8266Text.map parseLine

/-! ## Documentation tables in the comments -/

/-- Value of a word `GPIO<n>`, also when enclosed in parentheses. -/
def gpio? (w : List Char) : Option Nat :=
  match w.filter (fun c => c ≠ '(' ∧ c ≠ ')') with
  | 'G' :: 'P' :: 'I' :: 'O' :: ds => nat? ds
  | _ => none

/-- A comment line `//   D5 = GPIO14 = SCK ...` documents that board pin of
the NodeMCU: the signal name and its GPIO number. -/
def parseBoardPin (s : String) : Option (String × Nat) :=
  match words s.data with
  | sl :: _ :: eq1 :: g :: eq2 :: sig :: _ =>
    if sl = "//".data ∧ eq1 = "=".data ∧ eq2 = "=".data then
      (gpio? g).map (fun n => (String.mk sig, n))
    else none
  | _ => none

/-- A comment line `//   ESP32 GPIO 5  (CS)   -> NodeMCU D8 (GPIO15)` is one
row of the pin-mapping table: signal name, ESP32 GPIO, NodeMCU GPIO. -/
def parseMapping (s : String) : Option (String × Nat × Nat) :=
  match words s.data with
  | sl :: b1 :: g :: n :: sig :: arrow :: b2 :: _ :: m :: _ =>
    if sl = "//".data ∧ b1 = "ESP32".data ∧ g = "GPIO".data ∧ arrow = "->".data
        ∧ b2 = "NodeMCU".data then
      match nat? n, gpio? m with
      | some a, some b => some (String.mk (sig.filter (fun c => c ≠ '(' ∧ c ≠ ')')), a, b)
      | _, _ => none
    else none
  | _ => none

/-- NodeMCU board pins documented in the ESP8266 header. -/
def boardPins : List (String × Nat) := esp8266Text.filterMap parseBoardPin

/-- The table `PIN MAPPING from ESP32 to NodeMCU` of the ESP8266 header. -/
def pinMapping : List (String × Nat × Nat) := esp8266Text.filterMap parseMapping

/-- ESP32 GPIO documented for a signal. -/
def docEsp32 (sig : String) : Option Nat :=
  (pinMapping.find? (fun r => r.1 = sig)).map (fun r => r.2.1)

/-- NodeMCU GPIO documented for a signal. -/
def docNodeMCU (sig : String) : Option Nat :=
  (pinMapping.find? (fun r => r.1 = sig)).map (fun r => r.2.2)

/-! ## Preprocessing -/

/-- Macro environment: the macros defined so far with their replacement
lists, in order of first definition. -/
abbrev Env := List (String × Body)

/-- Whether a macro name is defined. -/
def isDefined (n : String) (e : Env) : Bool := e.any (fun b => b.1 = n)

/-- Replacement list of a macro, if defined. -/
def lookup (n : String) : Env → Option Body
  | [] => none
  | (m, b) :: e => if m = n then some b else lookup n e

/-- Effect of `#define n b`: the name is bound to the replacement list; a
name already defined keeps its place and takes the new replacement list (a
repeated definition with the same replacement list changes nothing). -/
def bind (n : String) (b : Body) : Env → Env
  | [] => [(n, b)]
  | (m, c) :: e => if m = n then (n, b) :: e else (m, c) :: bind n b e

/-- Names defined in an environment. -/
def names (e : Env) : List String := e.map Prod.fst

/-- Preprocessor state while reading a file. -/
structure State where
  /-- Macros defined so far. -/
  env : Env
  /-- One entry per open conditional, innermost first: whether its group is
  being processed. -/
  conds : List Bool
  /-- Names of the `#define` directives processed so far, in order. -/
  executed : List String
  deriving DecidableEq, Repr

/-- Lines are processed only when every open conditional is. -/
def State.active (s : State) : Bool := s.conds.all id

/-- Process one line. -/
def step (s : State) : Line → State
  | Line.blank => s
  | Line.other _ => s
  | Line.ifndef n => { s with conds := (s.active && !isDefined n s.env) :: s.conds }
  | Line.endif => { s with conds := s.conds.tail }
  | Line.define n b =>
    if s.active then { s with env := bind n b s.env, executed := s.executed ++ [n] }
    else s

/-- Preprocess a header starting from the environment `e`. -/
def preprocess (h : List Line) (e : Env) : State :=
  h.foldl step { env := e, conds := [], executed := [] }

/-- Macro environment after including a header. -/
def envAfter (h : List Line) (e : Env) : Env := (preprocess h e).env

/-- Names of all `#define` directives in the text of a header, in order. -/
def defineNames (h : List Line) : List String :=
  h.filterMap (fun l => match l with
    | Line.define n _ => some n
    | _ => none)

/-- The lines of a header inside its include guard: after the first
`#ifndef` up to the next `#endif`. -/
def guarded : List Line → List Line
  | [] => []
  | Line.ifndef _ :: rest => rest.takeWhile (fun l => l ≠ Line.endif)
  | _ :: rest => guarded rest

/-- Integer value of a macro. -/
def intValue (e : Env) (n : String) : Option Int :=
  match lookup n e with
  | some (Body.int v) => some v
  | _ => none

/-- Nearest integer to `a / b`, a tie going to the even one. -/
def roundHalfEven (a b : Nat) : Nat :=
  if 2 * (a % b) < b then a / b
  else if b < 2 * (a % b) then a / b + 1
  else if (a / b) % 2 = 0 then a / b
  else a / b + 1

/-- Number of halvings that bring `n` below 2, at most `fuel` of them. -/
def log2Aux : Nat → Nat → Nat
  | 0, _ => 0
  | fuel + 1, n => if n < 2 then 0 else log2Aux fuel (n / 2) + 1

/-- Position of the leading binary digit of a positive number. -/
def log2 (n : Nat) : Nat := log2Aux n n

/-- Binary exponent of the positive fraction `num / den`: the `x` with
`2 ^ x ≤ num / den < 2 ^ (x + 1)`. -/
def binExponent (num den : Nat) : Int :=
  if den * 2 ^ ((log2 num : Int) - (log2 den : Int)).toNat
      ≤ num * 2 ^ ((log2 den : Int) - (log2 num : Int)).toNat
  then (log2 num : Int) - (log2 den : Int)
  else (log2 num : Int) - (log2 den : Int) - 1

/-- Conversion of the non-negative fraction `num / den` to IEEE 754 binary64,
rounding to nearest, ties to even: the result is `n * 2 ^ x`, returned as
`(n, x)`, with `n` of at most 53 bits and `x` at least `-1074`; `none` when
the result is too large for the format. -/
def binary64Parts (num den : Nat) : Option (Nat × Int) :=
  if num = 0 then some (0, 0)
  else
    let x : Int := max (binExponent num den) (-1022) - 52
    let n := roundHalfEven (num * 2 ^ (-x).toNat) (den * 2 ^ x.toNat)
    if 1024 ≤ (log2 n : Int) + x then none else some (n, x)

/-- Value of the binary64 nearest to `num / den`. -/
def binary64 (num den : Nat) : Option ℚ :=
  (binary64Parts num den).map (fun p => (p.1 : ℚ) * 2 ^ p.2)

/-- Value of a macro whose replacement list is a decimal floating constant.
The constant has no suffix, so it is a `double`: the binary64 nearest to the
number its digits denote. -/
def doubleValue (e : Env) (n : String) : Option ℚ :=
  match lookup n e with
  | some (Body.decimal m k) => binary64 m (10 ^ k)
  | _ => none

/-- The guard macro of both headers. -/
def guardName : String := "WEATHER_SENSOR_CFG_H"

/-- The macros the consuming library reads. -/
def contractMacros : List String :=
  [ "USE_CC1101", "BRESSER_5_IN_1", "PIN_RECEIVER_CS", "PIN_RECEIVER_IRQ",
    "PIN_RECEIVER_GPIO", "PIN_RECEIVER_RST", "MAX_SENSORS_DEFAULT",
    "WEATHER_SENSOR_FREQUENCY", "WIND_DATA_FLOATINGPOINT" ]

/-- The four receiver pin macros. -/
def pinMacros : List String :=
  [ "PIN_RECEIVER_CS", "PIN_RECEIVER_IRQ", "PIN_RECEIVER_GPIO", "PIN_RECEIVER_RST" ]

/-- SPI clock and data signals, wired to the hardware SPI unit. -/
def spiSignals : List String := [ "SCK", "MISO", "MOSI" ]

/-- GPIOs of the NodeMCU documented as hardware SPI clock and data pins. -/
def spiPinsNodeMCU : List Nat :=
  (boardPins.filter (fun r => r.1 ∈ spiSignals)).map (fun r => r.2)

/-- GPIOs of the ESP32 documented as hardware SPI clock and data pins. -/
def spiPinsEsp32 : List Nat :=
  (pinMapping.filter (fun r => r.1 ∈ spiSignals)).map (fun r => r.2.1)

/-- Lines that neither open nor close a conditional. -/
def Line.plain : Line → Bool
  | Line.ifndef _ => false
  | Line.endif => false
  | _ => true

/-- Shape of a header: blank lines, `#ifndef`, the guarded lines, `#endif`,
blank lines. -/
def guardShape (h : List Line) : List Line :=
  h.takeWhile (fun l => decide (l = Line.blank))
    ++ Line.ifndef guardName
      :: (guarded h
        ++ Line.endif :: (h.reverse.takeWhile (fun l => decide (l = Line.blank))).reverse)

/-! ## Lemmas on the preprocessor -/

theorem isDefined_bind (n m : String) (b : Body) (e : Env) :
    isDefined n (bind m b e) = (decide (m = n) || isDefined n e) := by
  induction e with
  | nil => simp [bind, isDefined]
  | cons p e ih =>
    obtain ⟨k, c⟩ := p
    by_cases hk : k = m
    · subst hk
      simp [bind, isDefined]
    · simp only [bind, hk, if_false]
      have ih2 : (bind m b e).any (fun x => decide (x.1 = n))
          = (decide (m = n) || e.any (fun x => decide (x.1 = n))) := ih
      simp only [isDefined, List.any_cons, ih2]
      cases decide (k = n) <;> cases decide (m = n) <;> simp

theorem foldl_step_blank (ls : List Line) (s : State)
    (h : ls.all (fun l => decide (l = Line.blank)) = true) : ls.foldl step s = s := by
  induction ls generalizing s with
  | nil => rfl
  | cons l ls ih =>
    simp only [List.all_cons, Bool.and_eq_true, decide_eq_true_eq] at h
    obtain ⟨h1, h2⟩ := h
    subst h1
    simpa [step] using ih s h2

theorem foldl_step_inactive (ls : List Line) (s : State)
    (h : ls.all Line.plain = true) (hs : s.active = false) : ls.foldl step s = s := by
  induction ls generalizing s with
  | nil => rfl
  | cons l ls ih =>
    simp only [List.all_cons, Bool.and_eq_true] at h
    obtain ⟨h1, h2⟩ := h
    have hl : step s l = s := by
      cases l <;> simp [step, hs, Line.plain] at h1 ⊢
    simpa [hl] using ih s h2 hs

theorem foldl_step_conds (ls : List Line) (s : State)
    (h : ls.all Line.plain = true) : (ls.foldl step s).conds = s.conds := by
  induction ls generalizing s with
  | nil => rfl
  | cons l ls ih =>
    simp only [List.all_cons, Bool.and_eq_true] at h
    obtain ⟨h1, h2⟩ := h
    have hl : (step s l).conds = s.conds := by
      cases l <;> simp [step, Line.plain] at h1 ⊢
      split <;> rfl
    simpa [hl] using ih (step s l) h2

theorem foldl_step_defined (ls : List Line) (s : State) (n : String)
    (h : ls.all Line.plain = true) (hn : isDefined n s.env = true) :
    isDefined n (ls.foldl step s).env = true := by
  induction ls generalizing s with
  | nil => exact hn
  | cons l ls ih =>
    simp only [List.all_cons, Bool.and_eq_true] at h
    obtain ⟨_, h2⟩ := h
    refine ih (step s l) h2 ?_
    cases l <;> simp only [step] <;> try exact hn
    split
    · simp [isDefined_bind, hn]
    · exact hn

theorem foldl_step_defines (ls : List Line) (s : State) (n : String)
    (h : ls.all Line.plain = true) (hs : s.active = true)
    (hn : n ∈ defineNames ls) : isDefined n (ls.foldl step s).env = true := by
  induction ls generalizing s with
  | nil => simp [defineNames] at hn
  | cons l ls ih =>
    have hp := h
    simp only [List.all_cons, Bool.and_eq_true] at h
    obtain ⟨h1, h2⟩ := h
    have hact : (step s l).active = true := by
      have hc := foldl_step_conds [l] s (by simpa using h1)
      simp only [List.foldl] at hc
      simpa [State.active, hc] using hs
    cases l with
    | define m b =>
      by_cases hm : m = n
      · refine foldl_step_defined ls _ n h2 ?_
        simp [step, hs, isDefined_bind, hm]
      · refine ih _ h2 hact ?_
        simp only [defineNames, List.filterMap_cons] at hn
        rcases List.mem_cons.mp hn with h3 | h3
        · exact absurd h3.symm hm
        · exact h3
    | blank => exact ih _ h2 hact (by simpa [defineNames] using hn)
    | other ws => exact ih _ h2 hact (by simpa [defineNames] using hn)
    | ifndef m => simp [Line.plain] at h1
    | endif => simp [Line.plain] at h1

/-- A header whose whole content is enclosed in `#ifndef g ... #endif`, the
body defining `g`: including it where `g` is defined changes nothing and
processes no `#define`, and after including it `g` is defined. -/
theorem preprocess_guard (g : String) (pre body post : List Line)
    (hpre : pre.all (fun l => decide (l = Line.blank)) = true)
    (hbody : body.all Line.plain = true)
    (hpost : post.all (fun l => decide (l = Line.blank)) = true)
    (hg : g ∈ defineNames body) (e : Env) :
    (isDefined g e = true →
      preprocess (pre ++ Line.ifndef g :: (body ++ Line.endif :: post)) e
        = { env := e, conds := [], executed := [] })
    ∧ isDefined g (envAfter (pre ++ Line.ifndef g :: (body ++ Line.endif :: post)) e) = true := by
  have hrun : ∀ s : State,
      (pre ++ Line.ifndef g :: (body ++ Line.endif :: post)).foldl step s
        = step (body.foldl step (step s (Line.ifndef g))) Line.endif := by
    intro s
    simp only [List.foldl_append, List.foldl_cons, foldl_step_blank pre s hpre]
    exact foldl_step_blank post _ hpost
  have hskip : isDefined g e = true →
      preprocess (pre ++ Line.ifndef g :: (body ++ Line.endif :: post)) e
        = { env := e, conds := [], executed := [] } := by
    intro hd
    simp only [preprocess, hrun]
    rw [foldl_step_inactive body _ hbody (by simp [step, State.active, hd])]
    simp [step]
  refine ⟨hskip, ?_⟩
  cases hd : isDefined g e with
  | true => simp [envAfter, hskip hd, hd]
  | false =>
    simp only [envAfter, preprocess, hrun]
    have := foldl_step_defines body (step { env := e, conds := [], executed := [] } (Line.ifndef g))
      g hbody (by simp [step, State.active, hd]) hg
    simpa [step] using this

/-- Double inclusion of a header of the guarded shape. -/
theorem include_twice (h : List Line) (hs : h = guardShape h)
    (hbody : (guarded h).all Line.plain = true)
    (hg : guardName ∈ defineNames (guarded h)) (e : Env) :
    envAfter h (envAfter h e) = envAfter h e
      ∧ (preprocess h (envAfter h e)).executed = [] := by
  have key := fun e => preprocess_guard guardName
    (h.takeWhile (fun l => decide (l = Line.blank))) (guarded h)
    (h.reverse.takeWhile (fun l => decide (l = Line.blank))).reverse
    (by simp [List.all_eq_true])
    hbody
    (by simp [List.all_eq_true])
    hg e
  have hs2 : guardShape h = h := hs.symm
  simp only [guardShape] at hs2
  simp only [hs2] at key
  have h2 := (key (envAfter h e)).1 (key e).2
  constructor
  · rw [envAfter, h2]
  · rw [h2]

/-- Two environments with the same names in the same order, whose values
agree at every position except under the names in `exc`, bind every name
outside `exc` alike. -/
theorem lookup_eq_or_mem (exc : List String) (e1 e2 : Env) (hn : names e1 = names e2)
    (hv : (List.zip e1 e2).all (fun p => decide (p.1.2 = p.2.2 ∨ p.1.1 ∈ exc)) = true)
    (n : String) : lookup n e1 = lookup n e2 ∨ n ∈ exc := by
  induction e1 generalizing e2 with
  | nil =>
    cases e2 with
    | nil => exact Or.inl rfl
    | cons q e2 => simp [names] at hn
  | cons p e1 ih =>
    cases e2 with
    | nil => simp [names] at hn
    | cons q e2 =>
      obtain ⟨k, b⟩ := p
      obtain ⟨m, c⟩ := q
      simp only [names, List.map_cons, List.cons.injEq] at hn
      obtain ⟨hk, hn2⟩ := hn
      subst hk
      simp only [List.zip_cons_cons, List.all_cons, Bool.and_eq_true, decide_eq_true_eq] at hv
      obtain ⟨h1, h2⟩ := hv
      by_cases hkn : k = n
      · subst hkn
        rcases h1 with h1 | h1
        · left
          simp [lookup, h1]
        · exact Or.inr h1
      · simpa [lookup, hkn] using ih e2 hn2 h2

/-! ## The configuration the headers produce -/

/-- C1: in the ESP32 header the macro `WIND_DATA_FLOATINGPOINT` is the name of
two `#define` directives inside the include guard, so the names of its
`#define` directives are not free of duplicates; in the ESP8266 header every
macro name occurs in one `#define` directive only. -/
theorem esp32_defines_wind_data_twice :
    (defineNames (guarded esp32Header)).count "WIND_DATA_FLOATINGPOINT" = 2
      ∧ ¬ (defineNames (guarded esp32Header)).Nodup
      ∧ (defineNames (guarded esp8266Header)).Nodup := by
  decide

/-- C2: preprocessing either header from the empty environment defines the
nine contract macros, leaves `_DEBUG_MODE_` undefined (the line holding its
`#define` is a comment), and defines the guard macro and nothing else. -/
theorem contract_macros_defined :
    (contractMacros.all (fun n => isDefined n (envAfter esp32Header [])) = true
      ∧ isDefined "_DEBUG_MODE_" (envAfter esp32Header []) = false
      ∧ "// #define _DEBUG_MODE_" ∈ esp32Text
      ∧ names (envAfter esp32Header []) = guardName :: contractMacros)
    ∧ (contractMacros.all (fun n => isDefined n (envAfter esp8266Header [])) = true
      ∧ isDefined "_DEBUG_MODE_" (envAfter esp8266Header []) = false
      ∧ "// #define _DEBUG_MODE_" ∈ esp8266Text
      ∧ names (envAfter esp8266Header []) = guardName :: contractMacros)
    ∧ parseLine "// #define _DEBUG_MODE_" = Line.blank := by
  decide

/-- C3: for each header and every initial macro environment, including the
header a second time leaves the macro environment of the first inclusion
unchanged, and the second inclusion processes no `#define` directive. -/
theorem double_inclusion (e : Env) :
    (envAfter esp32Header (envAfter esp32Header e) = envAfter esp32Header e
      ∧ (preprocess esp32Header (envAfter esp32Header e)).executed = [])
    ∧ (envAfter esp8266Header (envAfter esp8266Header e) = envAfter esp8266Header e
      ∧ (preprocess esp8266Header (envAfter esp8266Header e)).executed = []) :=
  ⟨include_twice esp32Header (by decide) (by decide) (by decide) e,
   include_twice esp8266Header (by decide) (by decide) (by decide) e⟩

/-- C4: in each header the four pin macros have integer values, each of them
`-1` or non-negative, and the values other than `-1` are pairwise distinct. -/
theorem pins_distinct :
    ((pinMacros.map (intValue (envAfter esp32Header []))).all Option.isSome = true
      ∧ (pinMacros.filterMap (intValue (envAfter esp32Header []))).all
          (fun v => decide (v = -1 ∨ 0 ≤ v)) = true
      ∧ ((pinMacros.filterMap (intValue (envAfter esp32Header []))).filter
          (fun v => decide (v ≠ -1))).Nodup)
    ∧ ((pinMacros.map (intValue (envAfter esp8266Header []))).all Option.isSome = true
      ∧ (pinMacros.filterMap (intValue (envAfter esp8266Header []))).all
          (fun v => decide (v = -1 ∨ 0 ≤ v)) = true
      ∧ ((pinMacros.filterMap (intValue (envAfter esp8266Header []))).filter
          (fun v => decide (v ≠ -1))).Nodup) := by
  decide

/-- C5: the values of `PIN_RECEIVER_CS`, `PIN_RECEIVER_IRQ` and
`PIN_RECEIVER_GPIO` lie in 0..39 in the ESP32 header and in 0..16 in the
ESP8266 header, and these are all the pin values other than `-1`. -/
theorem pins_in_gpio_range :
    ((["PIN_RECEIVER_CS", "PIN_RECEIVER_IRQ", "PIN_RECEIVER_GPIO"].map
          (intValue (envAfter esp32Header []))).all
        (fun o => o.any (fun v => decide (0 ≤ v ∧ v ≤ 39))) = true
      ∧ ((pinMacros.filterMap (intValue (envAfter esp32Header []))).filter
          (fun v => decide (v ≠ -1))).all (fun v => decide (0 ≤ v ∧ v ≤ 39)) = true
      ∧ intValue (envAfter esp32Header []) "PIN_RECEIVER_RST" = some (-1))
    ∧ ((["PIN_RECEIVER_CS", "PIN_RECEIVER_IRQ", "PIN_RECEIVER_GPIO"].map
          (intValue (envAfter esp8266Header []))).all
        (fun o => o.any (fun v => decide (0 ≤ v ∧ v ≤ 16))) = true
      ∧ ((pinMacros.filterMap (intValue (envAfter esp8266Header []))).filter
          (fun v => decide (v ≠ -1))).all (fun v => decide (0 ≤ v ∧ v ≤ 16)) = true
      ∧ intValue (envAfter esp8266Header []) "PIN_RECEIVER_RST" = some (-1)) := by
  decide

/-- C6: from the empty environment, including both headers in either order
gives the macro environment of the header included first: the second one
processes no `#define`, and the pin values stay those of the first; the two
headers on their own give different environments. -/
theorem second_header_ignored :
    (envAfter esp8266Header (envAfter esp32Header []) = envAfter esp32Header []
      ∧ (preprocess esp8266Header (envAfter esp32Header [])).executed = []
      ∧ pinMacros.map (intValue (envAfter esp8266Header (envAfter esp32Header [])))
          = [some 5, some 4, some 2, some (-1)])
    ∧ (envAfter esp32Header (envAfter esp8266Header []) = envAfter esp8266Header []
      ∧ (preprocess esp32Header (envAfter esp8266Header [])).executed = []
      ∧ pinMacros.map (intValue (envAfter esp32Header (envAfter esp8266Header [])))
          = [some 15, some 4, some 5, some (-1)])
    ∧ envAfter esp32Header [] ≠ envAfter esp8266Header [] := by
  decide

/-- C7: the ESP32 header defines CS = 5, IRQ = 4, GPIO = 2 and the ESP8266
header CS = 15, IRQ = 4, GPIO = 5, which are the ESP32 and NodeMCU sides of
the rows CS, GDO0 and GDO2 of the pin-mapping table in the ESP8266 header;
`PIN_RECEIVER_RST` is `-1` in both. -/
theorem pins_match_documentation :
    (pinMacros.map (intValue (envAfter esp32Header []))
        = [some 5, some 4, some 2, some (-1)]
      ∧ ["CS", "GDO0", "GDO2"].map docEsp32 = [some 5, some 4, some 2])
    ∧ (pinMacros.map (intValue (envAfter esp8266Header []))
        = [some 15, some 4, some 5, some (-1)]
      ∧ ["CS", "GDO0", "GDO2"].map docNodeMCU = [some 15, some 4, some 5]) := by
  decide

/-- C8, as amended: both headers define `WEATHER_SENSOR_FREQUENCY` by the
same floating constant `868.3`, whose value is the same `double` in both,
3818823785591603 / 2^42; it lies 1/21990232555520 below 8683/10, which is less than half a unit in
the last place (2^-44), is at least 868, below 869 and different from 915. -/
theorem frequency_in_868_band :
    lookup "WEATHER_SENSOR_FREQUENCY" (envAfter esp32Header []) = some (Body.decimal 8683 1)
      ∧ lookup "WEATHER_SENSOR_FREQUENCY" (envAfter esp8266Header [])
          = some (Body.decimal 8683 1)
      ∧ ∃ f : ℚ, doubleValue (envAfter esp32Header []) "WEATHER_SENSOR_FREQUENCY" = some f
          ∧ doubleValue (envAfter esp8266Header []) "WEATHER_SENSOR_FREQUENCY" = some f
          ∧ f = 3818823785591603 / 2 ^ 42
          ∧ 8683 / 10 - f = 1 / 21990232555520
          ∧ |8683 / 10 - f| < 1 / 2 ^ 44
          ∧ 868 ≤ f ∧ f < 869 ∧ f ≠ 915 := by
  have h1 : lookup "WEATHER_SENSOR_FREQUENCY" (envAfter esp32Header [])
      = some (Body.decimal 8683 1) := by decide
  have h2 : lookup "WEATHER_SENSOR_FREQUENCY" (envAfter esp8266Header [])
      = some (Body.decimal 8683 1) := by decide
  have hp : binary64Parts 8683 (10 ^ 1) = some (7637647571183206, -43) := by decide
  have hb : binary64 8683 (10 ^ 1) = some (3818823785591603 / 2 ^ 42) := by
    simp only [binary64, hp, Option.map_some']
    norm_num
  refine ⟨h1, h2, 3818823785591603 / 2 ^ 42, ?_, ?_, rfl, ?_, ?_, ?_, ?_, ?_⟩
  · simp only [doubleValue, h1, hb]
  · simp only [doubleValue, h2, hb]
  · norm_num
  · rw [abs_lt]
    constructor <;> norm_num
  · norm_num
  · norm_num
  · norm_num

/-- C8, as first stated, fails: the value of `WEATHER_SENSOR_FREQUENCY` is
not the exact rational 8683/10 in either header, since 8683/10 is not a
binary64 number. -/
theorem frequency_not_exactly_8683_tenths :
    doubleValue (envAfter esp32Header []) "WEATHER_SENSOR_FREQUENCY" ≠ some (8683 / 10)
      ∧ doubleValue (envAfter esp8266Header []) "WEATHER_SENSOR_FREQUENCY"
          ≠ some (8683 / 10) := by
  have h1 : lookup "WEATHER_SENSOR_FREQUENCY" (envAfter esp32Header [])
      = some (Body.decimal 8683 1) := by decide
  have h2 : lookup "WEATHER_SENSOR_FREQUENCY" (envAfter esp8266Header [])
      = some (Body.decimal 8683 1) := by decide
  have hp : binary64Parts 8683 (10 ^ 1) = some (7637647571183206, -43) := by decide
  have hb : binary64 8683 (10 ^ 1) = some (3818823785591603 / 2 ^ 42) := by
    simp only [binary64, hp, Option.map_some']
    norm_num
  have hne : (3818823785591603 : ℚ) / 2 ^ 42 ≠ 8683 / 10 := by norm_num
  constructor
  · simp only [doubleValue, h1, hb, ne_eq, Option.some.injEq]
    exact hne
  · simp only [doubleValue, h2, hb, ne_eq, Option.some.injEq]
    exact hne

/-- C9: preprocessed from the empty environment, the two headers define the
same macro names, and every name has the same replacement list in both except
`PIN_RECEIVER_CS` (5 and 15) and `PIN_RECEIVER_GPIO` (2 and 5);
`MAX_SENSORS_DEFAULT` is 1 in both. -/
theorem profiles_parallel :
    names (envAfter esp32Header []) = names (envAfter esp8266Header [])
      ∧ (∀ n : String,
          lookup n (envAfter esp32Header []) = lookup n (envAfter esp8266Header [])
            ∨ n ∈ ["PIN_RECEIVER_CS", "PIN_RECEIVER_GPIO"])
      ∧ intValue (envAfter esp32Header []) "PIN_RECEIVER_CS" = some 5
      ∧ intValue (envAfter esp8266Header []) "PIN_RECEIVER_CS" = some 15
      ∧ intValue (envAfter esp32Header []) "PIN_RECEIVER_GPIO" = some 2
      ∧ intValue (envAfter esp8266Header []) "PIN_RECEIVER_GPIO" = some 5
      ∧ intValue (envAfter esp32Header []) "MAX_SENSORS_DEFAULT" = some 1
      ∧ intValue (envAfter esp8266Header []) "MAX_SENSORS_DEFAULT" = some 1 :=
  ⟨by decide,
   lookup_eq_or_mem _ _ _ (by decide) (by decide),
   by decide, by decide, by decide, by decide, by decide, by decide⟩

/-- C10: none of `PIN_RECEIVER_CS`, `PIN_RECEIVER_IRQ`, `PIN_RECEIVER_GPIO`
is one of the documented hardware SPI pins of its board: 14, 12, 13 (SCK,
MISO, MOSI) on the NodeMCU and 18, 23, 19 (SCK, MOSI, MISO) on the ESP32. -/
theorem pins_avoid_spi :
    (spiPinsNodeMCU = [14, 12, 13]
      ∧ (["PIN_RECEIVER_CS", "PIN_RECEIVER_IRQ", "PIN_RECEIVER_GPIO"].map
          (intValue (envAfter esp8266Header []))).all
        (fun o => o.any (fun v => decide (∀ p ∈ spiPinsNodeMCU, v ≠ (p : Int)))) = true)
    ∧ (spiPinsEsp32 = [18, 23, 19]
      ∧ (["PIN_RECEIVER_CS", "PIN_RECEIVER_IRQ", "PIN_RECEIVER_GPIO"].map
          (intValue (envAfter esp32Header []))).all
        (fun o => o.any (fun v => decide (∀ p ∈ spiPinsEsp32, v ≠ (p : Int)))) = true) := by
  decide

end WeatherSensorCfg
